import Mathlib

/-!
Verification development for the real-time Slack channel listener
(`src/main.py`): a shallow embedding of its message-ingestion and
durable-append pipeline, followed by theorems about the embedded code.

The embedding models Python/JSON values explicitly: a JSON value
distinguishes a field that is absent from a field that is present with
value `null`, because `dict.get(k)` collapses the two while `k in dict`
and `dict[k]` do not.  Fallible Python operations return `Except PyErr`.
-/

namespace SlackListener

/-- A JSON value as held in a Python dict after `json.load`, restricted to
the atom shapes the pipeline manipulates (Slack timestamps, ids and texts
are strings; reaction/attachment/file payloads are passed through
opaquely as values).  `null` models Python `None`. -/
inductive JVal where
  | null : JVal
  | str : String → JVal
  | arr : List JVal → JVal
  | obj : List (String × JVal) → JVal

/-- Python `v == s` for a string literal `s`: true exactly when `v` is
that string (`None == s`, lists and dicts compare unequal to strings). -/
def jstrEq (v : JVal) (s : String) : Bool :=
  match v with
  | .str t => t = s
  | _ => false

/-- Python `v is None`. -/
def jIsNone : JVal → Bool
  | .null => true
  | _ => false

/-- First-occurrence lookup in a Python dict modelled as an association
list (keys are unique in a dict, so first occurrence is the value). -/
def lookupField : List (String × JVal) → String → Option JVal
  | [], _ => none
  | (k, v) :: rest, key => if k = key then some v else lookupField rest key

/-- `k in d` for a Python dict: the field is present (possibly `None`). -/
def hasField (fs : List (String × JVal)) (k : String) : Bool :=
  (lookupField fs k).isSome

/-- `d.get(k)` on a dict: the stored value when present (even `None`),
Python `None` when absent. -/
def pyGetObj (fs : List (String × JVal)) (k : String) : JVal :=
  (lookupField fs k).getD JVal.null

/-- The Python exceptions the embedded code can raise or catch. -/
inductive PyErr where
  | keyError
  | typeError
  | attributeError
  | jsonDecodeError
  | otherException
deriving DecidableEq

/-- `v[k]` subscription: `KeyError` when the key is absent, `TypeError`
when the receiver is not a dict. -/
def pyIndexV : JVal → String → Except PyErr JVal
  | .obj fs, k =>
      match lookupField fs k with
      | some v => .ok v
      | none => .error .keyError
  | _, _ => .error .typeError

/-- `v.get(k, d)`: default only when the key is absent; `AttributeError`
when the receiver is not a dict (e.g. `None.get`). -/
def pyGetV (v : JVal) (k : String) (d : JVal) : Except PyErr JVal :=
  match v with
  | .obj fs => .ok ((lookupField fs k).getD d)
  | _ => .error .attributeError

/-- State of the backing file `slack_messages.json` as the code can
observe it: missing, existing with size 0, existing with non-empty
content that `json.load` rejects, or existing with content parsing to
the JSON value `v` (a dumped value is never empty). -/
inductive FileContent where
  | absent : FileContent
  | empty : FileContent
  | invalid : String → FileContent
  | json : JVal → FileContent

/-- `Path(MESSAGES_FILE).exists()`. -/
def fileExists : FileContent → Bool
  | .absent => false
  | _ => true

/-- The JSON file path for storing messages (module constant). -/
def MESSAGES_FILE : String := "slack_messages.json"

/-- The store dict the code builds fresh: constructor channel metadata and
a messages list. -/
def mkStore (cn ci : String) (msgs : List JVal) : JVal :=
  .obj [("channel_name", .str cn), ("channel_id", .str ci),
        ("messages", .arr msgs)]

/-- `initialize_messages_file`: create an empty store at the path only
when no file exists there; any existing file is left untouched. -/
def initialize_messages_file (cn ci : String) (file : FileContent) :
    FileContent :=
  if fileExists file then file else .json (mkStore cn ci [])

/-- One observable file-system step performed while saving: `open(p,'w')`
truncates the file at once; `json.dump` then writes the full value. -/
inductive FsOp where
  | openTruncate : String → FsOp
  | writeDump : String → JVal → FsOp

/-- In-place update of the dict entry at key `k` (Python mutation
`data[k].append(...)` followed by dumping `data` keeps every other entry
and the key order). -/
def setField (fs : List (String × JVal)) (k : String) (v : JVal) :
    List (String × JVal) :=
  fs.map fun p => if p.1 = k then (k, v) else p

/-- The try-branch of `save_message_to_json`: load the current store when
the file exists non-empty — a missing or empty file instead yields a
fresh data structure with constructor channel metadata — and append the
message in place.  An error value stands for a raised-and-caught
exception (`json.load` failing, `data["messages"]` missing, or
`.append` on a non-list). -/
def loadAndAppend (cn ci : String) (file : FileContent) (msg : JVal) :
    Except PyErr JVal :=
  match file with
  | .json (.obj fs) =>
      match lookupField fs "messages" with
      | some (.arr xs) =>
          .ok (.obj (setField fs "messages" (.arr (xs ++ [msg]))))
      | some _ => .error .attributeError
      | none => .error .keyError
  | .json _ => .error .typeError
  | .invalid _ => .error .jsonDecodeError
  | .absent => .ok (mkStore cn ci [msg])
  | .empty => .ok (mkStore cn ci [msg])

/-- `save_message_to_json`: run the try-branch (`loadAndAppend`) and
rewrite the whole file with its result; on a caught exception, fall back
to writing a fresh store holding only the new message, with channel
metadata from the constructor.  Returns the write-phase file-system
operations together with the final file content. -/
def save_message_to_json (cn ci : String) (file : FileContent)
    (msg : JVal) : List FsOp × FileContent :=
  match loadAndAppend cn ci file msg with
  | .ok data =>
      ([.openTruncate MESSAGES_FILE, .writeDump MESSAGES_FILE data],
       .json data)
  | .error _ =>
      ([.openTruncate MESSAGES_FILE,
        .writeDump MESSAGES_FILE (mkStore cn ci [msg])],
       .json (mkStore cn ci [msg]))

/-- Effect of one file-system operation on the content a reader of the
messages file observes at that moment. -/
def applyFsOp (c : FileContent) : FsOp → FileContent
  | .openTruncate p => if p = MESSAGES_FILE then .empty else c
  | .writeDump p v => if p = MESSAGES_FILE then .json v else c

/-- Every content a reader of the messages file could observe while the
operations run: the initial content and the content after each step. -/
def observedStates (c : FileContent) (ops : List FsOp) : List FileContent :=
  List.scanl applyFsOp c ops

/-- `parsesAsStore file` holds exactly when `save_message_to_json` gets
through its try-branch on `file` as an existing store: the content parses
to a dict whose `messages` entry is a list. -/
def parsesAsStore : FileContent → Bool
  | .json (.obj fs) =>
      match lookupField fs "messages" with
      | some (.arr _) => true
      | _ => false
  | _ => false

/-- The five-field user dict `get_user_info` builds. -/
structure UserInfo where
  id : JVal
  name : JVal
  real_name : JVal
  display_name : JVal
  email : JVal

/-- Outcome of the one `users_info` web-client call: a response value, a
raised `SlackApiError` (permission / unknown-user failures reported by
the API), or a raised exception of any other class (the web client and
transport can raise exceptions that are not `SlackApiError`, e.g. on
network faults; `except SlackApiError` does not catch those). -/
inductive LookupResult where
  | success : JVal → LookupResult
  | apiError : LookupResult
  | otherError : LookupResult

/-- `get_user_info`: on a `SlackApiError` return the placeholder profile;
on a response, project the fields, defaulting the optional ones to the
empty string; the `try` block catches only `SlackApiError`, so every
other exception — including `KeyError` from `response["user"]`,
`user["id"]` or `user["name"]` — propagates to the caller. -/
def get_user_info (user_id : JVal) (lk : LookupResult) :
    Except PyErr UserInfo :=
  match lk with
  | .apiError =>
      .ok ⟨user_id, .str "Unknown", .str "", .str "", .str ""⟩
  | .otherError => .error .otherException
  | .success resp =>
      match pyIndexV resp "user" with
      | .error e => .error e
      | .ok user =>
          match pyIndexV user "id" with
          | .error e => .error e
          | .ok idv =>
              match pyIndexV user "name" with
              | .error e => .error e
              | .ok namev =>
                  match pyGetV user "real_name" (.str "") with
                  | .error e => .error e
                  | .ok realv =>
                      match pyGetV user "profile" (.obj []) with
                      | .error e => .error e
                      | .ok prof1 =>
                          match pyGetV prof1 "display_name" (.str "") with
                          | .error e => .error e
                          | .ok dispv =>
                              match pyGetV user "profile" (.obj []) with
                              | .error e => .error e
                              | .ok prof2 =>
                                  match pyGetV prof2 "email" (.str "") with
                                  | .error e => .error e
                                  | .ok emailv =>
                                      .ok ⟨idv, namev, realv, dispv,
                                           emailv⟩

/-- `format_timestamp`: `float(ts)` raises `TypeError` on a non-string,
non-numeric value; the numeric conversion and the local-time `strftime`
rendering of a string timestamp cannot be mirrored bit-for-bit, so they
are abstracted by the oracle `fmtTime` (no claim depends on the rendered
text). -/
def format_timestamp (fmtTime : String → String) : JVal →
    Except PyErr String
  | .str s => .ok (fmtTime s)
  | _ => .error .typeError

/-- Observable pipeline actions, in program order: the socket-mode
acknowledgment, the evaluation of the message filter, the `users_info`
web-client call, and the durable append of a finished record. -/
inductive Action where
  | sendAck : String → Action
  | filterEval : Bool → Action
  | lookupCall : JVal → Action
  | appendRecord : JVal → Action

/-- Result of running a pipeline stage: the actions it performed, the
final backing-file content, and the exception it raised, if any (an
exception escapes the handler, but actions already performed stand). -/
structure PipeResult where
  trace : List Action
  file : FileContent
  err : Option PyErr

/-- `print_message`: resolve the sender (`event["user"]`), format the
timestamp (`event["ts"]`), build the record dict — whose `"message"`
entry reads `event["text"]` without a default while the remaining
optional entries use `.get` defaults — and save it.  Any raise leaves
the file untouched and appends nothing. -/
def print_message (lookup : JVal → LookupResult)
    (fmtTime : String → String) (cn ci : String) (file : FileContent)
    (ev : JVal) : PipeResult :=
  match ev with
  | .obj fs =>
      match lookupField fs "user" with
      | none => ⟨[], file, some .keyError⟩
      | some userV =>
          match get_user_info userV (lookup userV) with
          | .error e => ⟨[.lookupCall userV], file, some e⟩
          | .ok ui =>
              match lookupField fs "ts" with
              | none => ⟨[.lookupCall userV], file, some .keyError⟩
              | some tsv =>
                  match format_timestamp fmtTime tsv with
                  | .error e => ⟨[.lookupCall userV], file, some e⟩
                  | .ok ft =>
                      match lookupField fs "text" with
                      | none => ⟨[.lookupCall userV], file, some .keyError⟩
                      | some textv =>
                          let message_data : JVal := .obj
                            [("timestamp", .str ft),
                             ("slack_timestamp", tsv),
                             ("user", .obj
                               [("id", ui.id), ("name", ui.name),
                                ("real_name", ui.real_name),
                                ("display_name", ui.display_name),
                                ("email", ui.email)]),
                             ("message", textv),
                             ("channel_name", .str cn),
                             ("channel_id", .str ci),
                             ("message_id",
                              (lookupField fs "client_msg_id").getD (.str "")),
                             ("thread_ts",
                              (lookupField fs "thread_ts").getD (.str "")),
                             ("parent_user_id",
                              (lookupField fs "parent_user_id").getD (.str "")),
                             ("reactions",
                              (lookupField fs "reactions").getD (.arr [])),
                             ("attachments",
                              (lookupField fs "attachments").getD (.arr [])),
                             ("files",
                              (lookupField fs "files").getD (.arr []))]
                          ⟨[.lookupCall userV, .appendRecord message_data],
                           (save_message_to_json cn ci file message_data).2,
                           none⟩
  | _ => ⟨[], file, some .typeError⟩

/-- The filter condition of `handle_message_events` on the event dict:
`event["type"] == "message"` (a `KeyError` when `type` is absent) `and`
`event.get("channel") == self.channel_id` `and` `"user" in event` `and`
`event.get("subtype") is None`. -/
def acceptCond (fs : List (String × JVal)) (cid : String) :
    Except PyErr Bool :=
  match lookupField fs "type" with
  | none => .error .keyError
  | some t =>
      .ok (jstrEq t "message" && jstrEq (pyGetObj fs "channel") cid &&
        hasField fs "user" && jIsNone (pyGetObj fs "subtype"))

/-- One socket-mode request envelope as the handler receives it. -/
structure SocketModeRequest where
  type : String
  payload : List (String × JVal)
  envelope_id : String

/-- `handle_message_events`: acknowledge the envelope first, then — only
for an `events_api` request — fetch `payload["event"]`, run the filter,
and on acceptance run `print_message`.  The debug print at the top of
the `events_api` branch calls `event.get`, which raises
`AttributeError` when the event is not a dict. -/
def handle_message_events (lookup : JVal → LookupResult)
    (fmtTime : String → String) (cn cid : String) (file : FileContent)
    (req : SocketModeRequest) : PipeResult :=
  if req.type = "events_api" then
    match lookupField req.payload "event" with
    | none => ⟨[.sendAck req.envelope_id], file, some .keyError⟩
    | some ev =>
        match ev with
        | .obj fs =>
            match acceptCond fs cid with
            | .error e => ⟨[.sendAck req.envelope_id], file, some e⟩
            | .ok true =>
                let pr := print_message lookup fmtTime cn cid file (.obj fs)
                ⟨.sendAck req.envelope_id :: .filterEval true :: pr.trace,
                 pr.file, pr.err⟩
            | .ok false =>
                ⟨[.sendAck req.envelope_id, .filterEval false], file, none⟩
        | _ => ⟨[.sendAck req.envelope_id], file, some .attributeError⟩
  else
    ⟨[.sendAck req.envelope_id], file, none⟩

/-- Removal of one key from an event dict, for comparing behaviour on an
event with and without a given field. -/
def eraseField (fs : List (String × JVal)) (k : String) :
    List (String × JVal) :=
  fs.filter fun p => p.1 ≠ k

/-- The filter predicate as the specification words it: type is exactly
"message", channel matches the tracked id, a `user` field is present,
and the `subtype` field is absent. -/
def spec_accept (fs : List (String × JVal)) (cid : String) : Bool :=
  (match lookupField fs "type" with
   | some t => jstrEq t "message"
   | none => false) &&
  jstrEq (pyGetObj fs "channel") cid &&
  hasField fs "user" &&
  (lookupField fs "subtype").isNone

/-! Helper lemmas about dict lookup under update and removal. -/

theorem lookupField_cons (a : String) (b : JVal)
    (rest : List (String × JVal)) (key : String) :
    lookupField ((a, b) :: rest) key =
      if a = key then some b else lookupField rest key := rfl

theorem setField_cons (a : String) (b : JVal)
    (rest : List (String × JVal)) (k : String) (v : JVal) :
    setField ((a, b) :: rest) k v =
      (if a = k then (k, v) else (a, b)) :: setField rest k v := rfl

theorem eraseField_cons (a : String) (b : JVal)
    (rest : List (String × JVal)) (k : String) :
    eraseField ((a, b) :: rest) k =
      if a = k then eraseField rest k else (a, b) :: eraseField rest k := by
  by_cases ha : a = k <;> simp [eraseField, List.filter_cons, ha]

theorem lookupField_setField_ne (fs : List (String × JVal))
    (k k' : String) (v : JVal) (h : k' ≠ k) :
    lookupField (setField fs k v) k' = lookupField fs k' := by
  induction fs with
  | nil => rfl
  | cons p rest ih =>
      obtain ⟨a, b⟩ := p
      rw [setField_cons]
      by_cases ha : a = k
      · have hak' : ¬a = k' := by rw [ha]; exact Ne.symm h
        rw [if_pos ha, lookupField_cons, lookupField_cons,
          if_neg (Ne.symm h), if_neg hak']
        exact ih
      · rw [if_neg ha, lookupField_cons, lookupField_cons]
        by_cases ha' : a = k'
        · rw [if_pos ha', if_pos ha']
        · rw [if_neg ha', if_neg ha']
          exact ih

theorem lookupField_setField_self (fs : List (String × JVal))
    (k : String) (v : JVal) (h : (lookupField fs k).isSome = true) :
    lookupField (setField fs k v) k = some v := by
  induction fs with
  | nil => simp [lookupField] at h
  | cons p rest ih =>
      obtain ⟨a, b⟩ := p
      rw [setField_cons]
      by_cases ha : a = k
      · rw [if_pos ha, lookupField_cons, if_pos rfl]
      · rw [lookupField_cons, if_neg ha] at h
        rw [if_neg ha, lookupField_cons, if_neg ha]
        exact ih h

theorem lookupField_eraseField_ne (fs : List (String × JVal))
    (k k' : String) (h : k' ≠ k) :
    lookupField (eraseField fs k) k' = lookupField fs k' := by
  induction fs with
  | nil => rfl
  | cons p rest ih =>
      obtain ⟨a, b⟩ := p
      rw [eraseField_cons]
      by_cases ha : a = k
      · have hak' : ¬a = k' := by rw [ha]; exact Ne.symm h
        rw [if_pos ha, lookupField_cons, if_neg hak']
        exact ih
      · rw [if_neg ha, lookupField_cons, lookupField_cons]
        by_cases ha' : a = k'
        · rw [if_pos ha', if_pos ha']
        · rw [if_neg ha', if_neg ha']
          exact ih

theorem lookupField_eraseField_self (fs : List (String × JVal))
    (k : String) :
    lookupField (eraseField fs k) k = none := by
  induction fs with
  | nil => rfl
  | cons p rest ih =>
      obtain ⟨a, b⟩ := p
      rw [eraseField_cons]
      by_cases ha : a = k
      · rw [if_pos ha]
        exact ih
      · rw [if_neg ha, lookupField_cons, if_neg ha]
        exact ih

theorem jstrEq_eq_true_iff (v : JVal) (s : String) :
    jstrEq v s = true ↔ v = .str s := by
  cases v <;> simp [jstrEq]

theorem jIsNone_eq_true_iff (v : JVal) : jIsNone v = true ↔ v = .null := by
  cases v <;> simp [jIsNone]

/-- Every run of `save_message_to_json` performs exactly one truncating
open of the messages file followed by one full dump, and the final file
content is the dumped value. -/
theorem save_message_shape (cn ci : String) (file : FileContent)
    (msg : JVal) :
    ∃ v, save_message_to_json cn ci file msg =
      ([.openTruncate MESSAGES_FILE, .writeDump MESSAGES_FILE v],
       .json v) := by
  unfold save_message_to_json
  cases loadAndAppend cn ci file msg with
  | ok data => exact ⟨data, rfl⟩
  | error e => exact ⟨mkStore cn ci [msg], rfl⟩

/-- C1: if the backing file exists and its content fails to parse as a
valid store, then appending message `M` catches the failure and writes a
fresh store whose messages sequence is exactly `[M]` and whose
`channel_name` and `channel_id` are the constructor-supplied values;
prior file content is discarded. -/
theorem corrupt_store_recovery (cn ci : String) (file : FileContent)
    (msg : JVal) (hex : fileExists file = true)
    (hbad : parsesAsStore file = false) :
    (save_message_to_json cn ci file msg).2 =
      .json (mkStore cn ci [msg]) := by
  cases file with
  | absent => simp [fileExists] at hex
  | empty => rfl
  | invalid j => rfl
  | json v =>
      cases v with
      | null => rfl
      | str s => rfl
      | arr xs => rfl
      | obj fs =>
          cases h : lookupField fs "messages" with
          | none => simp [save_message_to_json, loadAndAppend, h]
          | some w =>
              cases w with
              | arr xs => simp [parsesAsStore, h] at hbad
              | null => simp [save_message_to_json, loadAndAppend, h]
              | str s => simp [save_message_to_json, loadAndAppend, h]
              | obj gs => simp [save_message_to_json, loadAndAppend, h]

/-- Witness for C1 at a concrete unparseable file and message. -/
theorem corrupt_store_recovery_witness :
    fileExists (.invalid "not json at all") = true ∧
    parsesAsStore (.invalid "not json at all") = false ∧
    (save_message_to_json "general" "C1" (.invalid "not json at all")
      (.obj [("message", .str "hi")])).2 =
      .json (mkStore "general" "C1" [.obj [("message", .str "hi")]]) :=
  ⟨rfl, rfl, corrupt_store_recovery "general" "C1" _ _ rfl rfl⟩

/-- C3 counterexample: appending to a store of one message truncates the
backing file in place — the write-phase operations open the real file for
truncating write (no temporary file, no rename), and a reader between
the truncation and the dump observes a file state that is neither the
old content nor the new content. -/
theorem append_not_atomic_cex :
    FsOp.openTruncate MESSAGES_FILE ∈
      (save_message_to_json "general" "C1"
        (.json (mkStore "general" "C1" [.obj [("message", .str "m1")]]))
        (.obj [("message", .str "m2")])).1 ∧
    ∃ s ∈ observedStates
        (.json (mkStore "general" "C1" [.obj [("message", .str "m1")]]))
        (save_message_to_json "general" "C1"
          (.json (mkStore "general" "C1" [.obj [("message", .str "m1")]]))
          (.obj [("message", .str "m2")])).1,
      s ≠ .json (mkStore "general" "C1" [.obj [("message", .str "m1")]]) ∧
      s ≠ (save_message_to_json "general" "C1"
            (.json (mkStore "general" "C1" [.obj [("message", .str "m1")]]))
            (.obj [("message", .str "m2")])).2 := by
  refine ⟨List.mem_cons_self _ _, FileContent.empty, ?_, ?_, ?_⟩
  · exact List.Mem.tail _ (List.mem_cons_self _ _)
  · intro h
    exact FileContent.noConfusion h
  · intro h
    exact FileContent.noConfusion h

/-- C3 amended: every append rewrites the entire backing file in place —
one truncating open of the messages file followed by one full dump, no
temporary file and no rename — so the observable file states during an
append are exactly the old content, a momentary empty file, and the new
content. -/
theorem append_rewrites_in_place (cn ci : String) (file : FileContent)
    (msg : JVal) :
    ∃ v, (save_message_to_json cn ci file msg).1 =
        [.openTruncate MESSAGES_FILE, .writeDump MESSAGES_FILE v] ∧
      (save_message_to_json cn ci file msg).2 = .json v ∧
      observedStates file (save_message_to_json cn ci file msg).1 =
        [file, .empty, .json v] := by
  obtain ⟨v, hv⟩ := save_message_shape cn ci file msg
  refine ⟨v, ?_, ?_, ?_⟩
  · rw [hv]
  · rw [hv]
  · rw [hv]
    simp [observedStates, applyFsOp]

/-- C4 counterexample: `get_user_info` can raise to its caller — a
successful lookup response whose user object lacks the `name` field
raises `KeyError` (the `except` clause catches only `SlackApiError`),
and a web-client exception of any other class propagates unchanged. -/
theorem resolve_raises_cex :
    get_user_info (.str "U1")
        (.success (.obj [("user", .obj [("id", .str "U1")])])) =
      .error .keyError ∧
    get_user_info (.str "U1") .otherError = .error .otherException :=
  ⟨rfl, rfl⟩

/-- C4 amended: on a `SlackApiError` from the lookup (permission denied,
unknown user — every failure the API reports), `get_user_info` absorbs
the failure and returns the placeholder profile with `id = userId`,
`name = "Unknown"`, and `real_name`, `display_name`, `email` all the
empty string; exceptions of any other class propagate to the caller. -/
theorem resolve_api_error_placeholder (uid : JVal) :
    get_user_info uid .apiError =
      .ok ⟨uid, .str "Unknown", .str "", .str "", .str ""⟩ := rfl

/-- C6: `initialize_messages_file` is idempotent — when no backing file
exists it creates one containing an empty store with the given channel
metadata, and calling it on any existing file (in particular an existing
store file) leaves the content exactly as it was. -/
theorem init_messages_file_idempotent (cn ci : String)
    (file : FileContent) (v : JVal) :
    initialize_messages_file cn ci (initialize_messages_file cn ci file) =
      initialize_messages_file cn ci file ∧
    initialize_messages_file cn ci (.json v) = .json v ∧
    initialize_messages_file cn ci .absent = .json (mkStore cn ci []) := by
  refine ⟨?_, rfl, rfl⟩
  cases file <;> rfl

/-- C8: for every inbound envelope — whatever its type, payload shape, or
eventual accept/drop/raise outcome — the handler's first action is the
socket-mode acknowledgment keyed by the envelope id; filtering, the
profile lookup, and the record append all happen after it in the action
trace. -/
theorem ack_sent_first (lookup : JVal → LookupResult)
    (fmtTime : String → String) (cn cid : String) (file : FileContent)
    (req : SocketModeRequest) :
    ∃ rest, (handle_message_events lookup fmtTime cn cid file req).trace =
      .sendAck req.envelope_id :: rest := by
  unfold handle_message_events
  by_cases ht : req.type = "events_api"
  · rw [if_pos ht]
    cases lookupField req.payload "event" with
    | none => exact ⟨_, rfl⟩
    | some ev =>
        cases ev with
        | obj fs =>
            dsimp only
            cases acceptCond fs cid with
            | error e => exact ⟨_, rfl⟩
            | ok b =>
                cases b with
                | true => exact ⟨_, rfl⟩
                | false => exact ⟨_, rfl⟩
        | null => exact ⟨_, rfl⟩
        | str s => exact ⟨_, rfl⟩
        | arr xs => exact ⟨_, rfl⟩
  · rw [if_neg ht]
    exact ⟨_, rfl⟩

/-- C2 counterexample: an event whose `subtype` field is present with
value `null` is accepted by the code's filter, although the claimed
predicate — which requires `subtype` to be absent — rejects it, so
"accepted iff type, channel, user present, subtype absent" is false. -/
theorem accept_subtype_null_cex :
    acceptCond
        [("type", .str "message"), ("channel", .str "C1"),
         ("user", .str "U1"), ("subtype", JVal.null)] "C1" = .ok true ∧
    spec_accept
        [("type", .str "message"), ("channel", .str "C1"),
         ("user", .str "U1"), ("subtype", JVal.null)] "C1" = false :=
  ⟨rfl, rfl⟩

/-- C2 amended: the filter accepts an event iff its `type` equals
"message", its `channel` equals the tracked channel id, a `user` field
is present, and `subtype` is absent or present with value `null`
(`event.get("subtype") is None`); and a request envelope whose type is
not `events_api` never records anything and leaves the file unchanged. -/
theorem accept_iff_and_gate (cid : String) (fs : List (String × JVal))
    (lookup : JVal → LookupResult) (fmtTime : String → String)
    (cn : String) (file : FileContent) (req : SocketModeRequest)
    (hreq : req.type ≠ "events_api") :
    (acceptCond fs cid = .ok true ↔
      (lookupField fs "type" = some (.str "message") ∧
       pyGetObj fs "channel" = .str cid ∧ hasField fs "user" = true ∧
       pyGetObj fs "subtype" = JVal.null)) ∧
    (handle_message_events lookup fmtTime cn cid file req).file = file ∧
    ∀ m, Action.appendRecord m ∉
      (handle_message_events lookup fmtTime cn cid file req).trace := by
  refine ⟨?_, ?_, ?_⟩
  · cases h : lookupField fs "type" with
    | none => simp [acceptCond, h]
    | some t =>
        simp [acceptCond, h, Bool.and_eq_true, jstrEq_eq_true_iff,
          jIsNone_eq_true_iff, and_assoc]
  · simp [handle_message_events, hreq]
  · intro m
    simp [handle_message_events, hreq]

/-- Witness for C2's amended theorem at a concrete accepted event and a
concrete non-events-api envelope. -/
theorem accept_iff_and_gate_witness :
    (acceptCond [("type", .str "message"), ("channel", .str "C1"),
        ("user", .str "U1")] "C1" = .ok true ↔
      (lookupField [("type", .str "message"), ("channel", .str "C1"),
          ("user", .str "U1")] "type" = some (.str "message") ∧
       pyGetObj [("type", .str "message"), ("channel", .str "C1"),
          ("user", .str "U1")] "channel" = .str "C1" ∧
       hasField [("type", .str "message"), ("channel", .str "C1"),
          ("user", .str "U1")] "user" = true ∧
       pyGetObj [("type", .str "message"), ("channel", .str "C1"),
          ("user", .str "U1")] "subtype" = JVal.null)) ∧
    (handle_message_events (fun _ => .apiError) (fun s => s) "general"
      "C1" .absent ⟨"interactive", [], "env-1"⟩).file = .absent ∧
    ∀ m, Action.appendRecord m ∉
      (handle_message_events (fun _ => .apiError) (fun s => s) "general"
        "C1" .absent ⟨"interactive", [], "env-1"⟩).trace :=
  accept_iff_and_gate "C1"
    [("type", .str "message"), ("channel", .str "C1"), ("user", .str "U1")]
    (fun _ => .apiError) (fun s => s) "general" .absent
    ⟨"interactive", [], "env-1"⟩ (by decide)

/-- C9: an event whose `subtype` field is explicitly present with value
`null` is treated by the filter exactly like the same event with the
`subtype` field removed — `event.get("subtype") is None` holds in both
cases — so such an event can be accepted and recorded. -/
theorem subtype_null_same_as_absent (fs : List (String × JVal))
    (cid : String) (h : lookupField fs "subtype" = some JVal.null) :
    acceptCond fs cid = acceptCond (eraseField fs "subtype") cid := by
  unfold acceptCond
  rw [lookupField_eraseField_ne fs "subtype" "type" (by decide)]
  cases ht : lookupField fs "type" with
  | none => rfl
  | some t =>
      unfold pyGetObj hasField
      rw [lookupField_eraseField_ne fs "subtype" "channel" (by decide),
        lookupField_eraseField_ne fs "subtype" "user" (by decide),
        lookupField_eraseField_self fs "subtype", h]
      rfl

/-- Witness for C9 at a concrete event carrying `subtype: null`, which
the filter accepts. -/
theorem subtype_null_same_as_absent_witness :
    lookupField
        [("type", .str "message"), ("channel", .str "C1"),
         ("user", .str "U1"), ("subtype", JVal.null)] "subtype" =
      some JVal.null ∧
    acceptCond
        [("type", .str "message"), ("channel", .str "C1"),
         ("user", .str "U1"), ("subtype", JVal.null)] "C1" =
      acceptCond
        (eraseField
          [("type", .str "message"), ("channel", .str "C1"),
           ("user", .str "U1"), ("subtype", JVal.null)] "subtype") "C1" ∧
    acceptCond
        [("type", .str "message"), ("channel", .str "C1"),
         ("user", .str "U1"), ("subtype", JVal.null)] "C1" = .ok true :=
  ⟨rfl,
   subtype_null_same_as_absent
     [("type", .str "message"), ("channel", .str "C1"),
      ("user", .str "U1"), ("subtype", JVal.null)] "C1" rfl,
   rfl⟩

/-- C5: for every parseable existing store file and every record, append
leaves `channel_name`, `channel_id` and every prior message unchanged
and in order, placing the new record last; and three successive appends
of records with timestamps T1 < T2 < T3 starting from an empty store
yield the messages sequence `[T1, T2, T3]`. -/
theorem append_preserves_store (cn ci : String)
    (fs : List (String × JVal)) (xs : List JVal) (m m1 m2 m3 : JVal)
    (hm : lookupField fs "messages" = some (.arr xs)) :
    (∃ fs', (save_message_to_json cn ci (.json (.obj fs)) m).2 =
        .json (.obj fs') ∧
      lookupField fs' "channel_name" = lookupField fs "channel_name" ∧
      lookupField fs' "channel_id" = lookupField fs "channel_id" ∧
      lookupField fs' "messages" = some (.arr (xs ++ [m]))) ∧
    (save_message_to_json cn ci
      ((save_message_to_json cn ci
        ((save_message_to_json cn ci (.json (mkStore cn ci [])) m1).2)
        m2).2) m3).2 = .json (mkStore cn ci [m1, m2, m3]) := by
  constructor
  · refine ⟨setField fs "messages" (.arr (xs ++ [m])), ?_, ?_, ?_, ?_⟩
    · simp [save_message_to_json, loadAndAppend, hm]
    · exact lookupField_setField_ne fs "messages" "channel_name" _
        (by decide)
    · exact lookupField_setField_ne fs "messages" "channel_id" _
        (by decide)
    · exact lookupField_setField_self fs "messages" _ (by rw [hm]; rfl)
  · rfl

/-- Witness for C5 at a concrete one-message store and concrete records. -/
theorem append_preserves_store_witness :
    (∃ fs', (save_message_to_json "general" "C1"
        (.json (.obj [("channel_name", .str "general"),
          ("channel_id", .str "C1"),
          ("messages", .arr [.str "old"])])) (.str "new")).2 =
        .json (.obj fs') ∧
      lookupField fs' "channel_name" =
        lookupField [("channel_name", .str "general"),
          ("channel_id", .str "C1"),
          ("messages", .arr [.str "old"])] "channel_name" ∧
      lookupField fs' "channel_id" =
        lookupField [("channel_name", .str "general"),
          ("channel_id", .str "C1"),
          ("messages", .arr [.str "old"])] "channel_id" ∧
      lookupField fs' "messages" =
        some (.arr ([.str "old"] ++ [.str "new"]))) ∧
    (save_message_to_json "general" "C1"
      ((save_message_to_json "general" "C1"
        ((save_message_to_json "general" "C1"
          (.json (mkStore "general" "C1" []))
          (.str "T1")).2) (.str "T2")).2) (.str "T3")).2 =
      .json (mkStore "general" "C1" [.str "T1", .str "T2", .str "T3"]) :=
  append_preserves_store "general" "C1"
    [("channel_name", .str "general"), ("channel_id", .str "C1"),
     ("messages", .arr [.str "old"])]
    [.str "old"] (.str "new") (.str "T1") (.str "T2") (.str "T3") rfl

/-- C7: for every successful lookup response (a user object carrying the
required `id` and `name`, and a `profile` that is absent or an object)
in which `real_name`, `display_name` or `email` is absent, the resolved
profile carries the empty string in the corresponding field — present,
not null, and not an error. -/
theorem resolve_missing_fields_empty (u idv nv : JVal)
    (ufs : List (String × JVal))
    (hid : lookupField ufs "id" = some idv)
    (hname : lookupField ufs "name" = some nv)
    (hprof : lookupField ufs "profile" = none ∨
      ∃ pfs, lookupField ufs "profile" = some (.obj pfs)) :
    ∃ ui, get_user_info u (.success (.obj [("user", .obj ufs)])) =
        .ok ui ∧
      (lookupField ufs "real_name" = none → ui.real_name = .str "") ∧
      (lookupField ufs "profile" = none →
        ui.display_name = .str "" ∧ ui.email = .str "") ∧
      ∀ pfs, lookupField ufs "profile" = some (.obj pfs) →
        (lookupField pfs "display_name" = none →
          ui.display_name = .str "") ∧
        (lookupField pfs "email" = none → ui.email = .str "") := by
  rcases hprof with hp | ⟨pfs, hp⟩
  · refine ⟨⟨idv, nv, (lookupField ufs "real_name").getD (.str ""),
      .str "", .str ""⟩, ?_, ?_, ?_, ?_⟩
    · simp [get_user_info, pyIndexV, pyGetV, lookupField, hid, hname, hp]
    · intro h
      rw [h]
      rfl
    · intro _
      exact ⟨rfl, rfl⟩
    · intro pfs' hpf
      rw [hp] at hpf
      exact Option.noConfusion hpf
  · refine ⟨⟨idv, nv, (lookupField ufs "real_name").getD (.str ""),
      (lookupField pfs "display_name").getD (.str ""),
      (lookupField pfs "email").getD (.str "")⟩, ?_, ?_, ?_, ?_⟩
    · simp [get_user_info, pyIndexV, pyGetV, lookupField, hid, hname, hp]
    · intro h
      rw [h]
      rfl
    · intro h
      rw [hp] at h
      exact Option.noConfusion h
    · intro pfs' hpf
      rw [hp] at hpf
      injection hpf with h1
      injection h1 with h2
      subst h2
      refine ⟨fun h => ?_, fun h => ?_⟩
      · rw [show UserInfo.display_name
          ⟨idv, nv, (lookupField ufs "real_name").getD (.str ""),
           (lookupField pfs "display_name").getD (.str ""),
           (lookupField pfs "email").getD (.str "")⟩ =
          (lookupField pfs "display_name").getD (.str "") from rfl, h]
        rfl
      · rw [show UserInfo.email
          ⟨idv, nv, (lookupField ufs "real_name").getD (.str ""),
           (lookupField pfs "display_name").getD (.str ""),
           (lookupField pfs "email").getD (.str "")⟩ =
          (lookupField pfs "email").getD (.str "") from rfl, h]
        rfl

/-- Witness for C7 at a concrete response carrying only `id` and `name`. -/
theorem resolve_missing_fields_empty_witness :
    ∃ ui, get_user_info (.str "U1")
        (.success (.obj [("user",
          .obj [("id", .str "U1"), ("name", .str "bob")])])) = .ok ui ∧
      (lookupField [("id", .str "U1"), ("name", .str "bob")] "real_name" =
          none → ui.real_name = .str "") ∧
      (lookupField [("id", .str "U1"), ("name", .str "bob")] "profile" =
          none → ui.display_name = .str "" ∧ ui.email = .str "") ∧
      ∀ pfs, lookupField [("id", .str "U1"), ("name", .str "bob")]
          "profile" = some (.obj pfs) →
        (lookupField pfs "display_name" = none →
          ui.display_name = .str "") ∧
        (lookupField pfs "email" = none → ui.email = .str "") :=
  resolve_missing_fields_empty (.str "U1") (.str "U1") (.str "bob")
    [("id", .str "U1"), ("name", .str "bob")] rfl rfl (Or.inl rfl)

/-- C10: the filter reads only the `type`, `channel`, `user` and
`subtype` fields (removing `text` and `ts` never changes its verdict),
while record construction reads `event["text"]` and `event["ts"]`
without a default; hence processing an accepted event that lacks `text`
or `ts` raises, appends no record, and leaves the file unchanged. -/
theorem accepted_missing_text_or_ts_raises
    (lookup : JVal → LookupResult) (fmtTime : String → String)
    (cn cid : String) (file : FileContent) (fs : List (String × JVal))
    (hacc : acceptCond fs cid = .ok true)
    (hmiss : lookupField fs "ts" = none ∨ lookupField fs "text" = none) :
    ((print_message lookup fmtTime cn cid file (.obj fs)).err.isSome =
        true ∧
     (print_message lookup fmtTime cn cid file (.obj fs)).file = file ∧
     ∀ m, Action.appendRecord m ∉
       (print_message lookup fmtTime cn cid file (.obj fs)).trace) ∧
    acceptCond (eraseField (eraseField fs "text") "ts") cid =
      acceptCond fs cid := by
  have l1 : lookupField (eraseField (eraseField fs "text") "ts") "type" =
      lookupField fs "type" :=
    (lookupField_eraseField_ne _ "ts" "type" (by decide)).trans
      (lookupField_eraseField_ne _ "text" "type" (by decide))
  have l2 : lookupField (eraseField (eraseField fs "text") "ts")
      "channel" = lookupField fs "channel" :=
    (lookupField_eraseField_ne _ "ts" "channel" (by decide)).trans
      (lookupField_eraseField_ne _ "text" "channel" (by decide))
  have l3 : lookupField (eraseField (eraseField fs "text") "ts") "user" =
      lookupField fs "user" :=
    (lookupField_eraseField_ne _ "ts" "user" (by decide)).trans
      (lookupField_eraseField_ne _ "text" "user" (by decide))
  have l4 : lookupField (eraseField (eraseField fs "text") "ts")
      "subtype" = lookupField fs "subtype" :=
    (lookupField_eraseField_ne _ "ts" "subtype" (by decide)).trans
      (lookupField_eraseField_ne _ "text" "subtype" (by decide))
  have herase : acceptCond (eraseField (eraseField fs "text") "ts") cid =
      acceptCond fs cid := by
    unfold acceptCond
    rw [l1]
    cases ht : lookupField fs "type" with
    | none => rfl
    | some t =>
        unfold pyGetObj hasField
        rw [l2, l3, l4]
  refine ⟨?_, herase⟩
  rcases hmiss with hts | htext
  · cases hu : lookupField fs "user" with
    | none => refine ⟨?_, ?_, ?_⟩ <;> simp [print_message, hu]
    | some u =>
        cases hg : get_user_info u (lookup u) with
        | error e =>
            refine ⟨?_, ?_, ?_⟩ <;> simp [print_message, hu, hg]
        | ok ui =>
            refine ⟨?_, ?_, ?_⟩ <;> simp [print_message, hu, hg, hts]
  · cases hu : lookupField fs "user" with
    | none => refine ⟨?_, ?_, ?_⟩ <;> simp [print_message, hu]
    | some u =>
        cases hg : get_user_info u (lookup u) with
        | error e =>
            refine ⟨?_, ?_, ?_⟩ <;> simp [print_message, hu, hg]
        | ok ui =>
            cases hts2 : lookupField fs "ts" with
            | none =>
                refine ⟨?_, ?_, ?_⟩ <;>
                  simp [print_message, hu, hg, hts2]
            | some tsv =>
                cases hf : format_timestamp fmtTime tsv with
                | error e =>
                    refine ⟨?_, ?_, ?_⟩ <;>
                      simp [print_message, hu, hg, hts2, hf]
                | ok ft =>
                    refine ⟨?_, ?_, ?_⟩ <;>
                      simp [print_message, hu, hg, hts2, hf, htext]

/-- Witness for C10 at a concrete accepted event lacking both `text` and
`ts`. -/
theorem accepted_missing_text_or_ts_raises_witness :
    ((print_message (fun _ => .apiError) (fun s => s) "general" "C1"
        .absent (.obj [("type", .str "message"), ("channel", .str "C1"),
          ("user", .str "U1")])).err.isSome = true ∧
     (print_message (fun _ => .apiError) (fun s => s) "general" "C1"
        .absent (.obj [("type", .str "message"), ("channel", .str "C1"),
          ("user", .str "U1")])).file = .absent ∧
     ∀ m, Action.appendRecord m ∉
       (print_message (fun _ => .apiError) (fun s => s) "general" "C1"
          .absent (.obj [("type", .str "message"),
            ("channel", .str "C1"), ("user", .str "U1")])).trace) ∧
    acceptCond
        (eraseField (eraseField [("type", .str "message"),
          ("channel", .str "C1"), ("user", .str "U1")] "text") "ts")
        "C1" =
      acceptCond [("type", .str "message"), ("channel", .str "C1"),
        ("user", .str "U1")] "C1" :=
  accepted_missing_text_or_ts_raises (fun _ => .apiError) (fun s => s)
    "general" "C1" .absent
    [("type", .str "message"), ("channel", .str "C1"), ("user", .str "U1")]
    rfl (Or.inl rfl)

end SlackListener
